import Mathlib

/-!
Shallow embedding of the crinkled repository's dubious module
(src/src/dubious/mod.rs and src/src/dubious/validate.rs).

The Rust type Dubious is a single-field tuple struct around a value of
type T.  Rust's Result is rendered as Except (with the error type first),
Rust's Option as Option.  Each Lean definition below mirrors one Rust
item; the field access .val corresponds to the Rust field access .0.
-/

/-- Embeds the Rust tuple struct Dubious from src/src/dubious/mod.rs:
a zero-cost single-field wrapper around a value of type T. -/
structure Dubious (T : Type) where
  val : T
deriving DecidableEq, Repr

/-- Embeds Dubious::new: wraps a value, performing no check. -/
def Dubious.new {T : Type} (value : T) : Dubious T :=
  Dubious.mk value

/-- Embeds Dubious::validate_with: applies the caller-supplied validation
function to the contained value. -/
def Dubious.validate_with {T E : Type} (d : Dubious T) (f : T → Except E T) : Except E T :=
  f d.val

/-- Embeds Dubious::map: applies f to the contained value, rewrapping. -/
def Dubious.map {T U : Type} (d : Dubious T) (f : T → U) : Dubious U :=
  Dubious.mk (f d.val)

/-- Embeds Dubious::then (named thenDo here because then is a Lean
keyword): applies a wrapper-producing function to the contained value. -/
def Dubious.thenDo {T U : Type} (d : Dubious T) (f : T → Dubious U) : Dubious U :=
  f d.val

/-- Embeds Dubious::zip: pairs the two contained values, rewrapping. -/
def Dubious.zip {T U : Type} (d : Dubious T) (other : Dubious U) : Dubious (T × U) :=
  Dubious.mk (d.val, other.val)

/-- Embeds Dubious::zip_with: applies f to the pair of contained values,
rewrapping. -/
def Dubious.zip_with {T U R : Type} (d : Dubious T) (other : Dubious U)
    (f : T × U → R) : Dubious R :=
  Dubious.mk (f (d.val, other.val))

/-- Embeds Dubious::flatten on Dubious (Dubious T): returns the inner
wrapper, removing one level of nesting. -/
def Dubious.flatten {T : Type} (d : Dubious (Dubious T)) : Dubious T :=
  d.val

/-- Embeds the impl From T for Dubious T (named fromVal since from is a
Lean keyword): wraps the value directly. -/
def Dubious.fromVal {T : Type} (x : T) : Dubious T :=
  Dubious.mk x

/-- Embeds Dubious::invert on Dubious (Option T): maps the contained
option, wrapping its payload when present. -/
def Dubious.invert {T : Type} (d : Dubious (Option T)) : Option (Dubious T) :=
  d.val.map (fun x => Dubious.mk x)

/-- Embeds the cross-type equality impl PartialEq T for Dubious T:
compares the contained value against a bare value using T's equality.
Rust's PartialEq is rendered as BEq: a boolean relation that Rust
requires to be symmetric and transitive but not reflexive. -/
def Dubious.eqBare {T : Type} [BEq T] (d : Dubious T) (other : T) : Bool :=
  d.val == other

/-- Embeds Rust's Result::ok: keeps the success value, drops the error. -/
def resultOk {E A : Type} : Except E A → Option A
  | .ok a => some a
  | .error _ => none

/-- Embeds Rust's Result::err: keeps the error, drops the success value. -/
def resultErr {E A : Type} : Except E A → Option E
  | .ok _ => none
  | .error e => some e

/-- Embeds Rust's Option::zip: some of the pair when both are some,
otherwise none. -/
def optZip {A B : Type} : Option A → Option B → Option (A × B)
  | some a, some b => some (a, b)
  | _, _ => none

/-- Embeds the Validate trait from src/src/dubious/validate.rs.  The Rust
associated type Error and the (defaultable) Ok parameter are rendered as
class parameters; validate consumes the value and returns the success
value or the error. -/
class Validate (Self : Type) (Ok : outParam Type) (Error : outParam Type) where
  validate : Self → Except Error Ok

/-- Embeds the provided trait method Validate::ok: validate, keeping only
the success value. -/
def Validate.ok {S Ok E : Type} [Validate S Ok E] (s : S) : Option Ok :=
  resultOk (Validate.validate s)

/-- Embeds the provided trait method Validate::err: validate, keeping
only the error. -/
def Validate.err {S Ok E : Type} [Validate S Ok E] (s : S) : Option E :=
  resultErr (Validate.validate s)

/-- Embeds the blanket impl Validate T for Dubious T: the wrapper's
validation delegates to the contained value's validation. -/
instance instValidateDubious {T E : Type} [Validate T T E] : Validate (Dubious T) T E where
  validate d := Validate.validate d.val

/-- Embeds Dubious::zip_ok: validates both sides through Validate::ok on
the wrappers and, when both succeed, wraps the pair of success values. -/
def Dubious.zip_ok {T U ET EU : Type} [Validate T T ET] [Validate U U EU]
    (d : Dubious T) (other : Dubious U) : Option (Dubious (T × U)) :=
  (optZip (Validate.ok d) (Validate.ok other)).map (fun t => Dubious.mk t)

/-- Concrete value type used to exercise the validity capability in
closed statements: an integer that is acceptable when at least -100, and
whose validation normalizes negative values to 0 (the Validate contract
allows the success value to differ from the input even when Ok = Self). -/
structure Clamped where
  val : Int
deriving DecidableEq, Repr

instance : Validate Clamped Clamped Unit where
  validate c := if -100 ≤ c.val then .ok (Clamped.mk (max c.val 0)) else .error ()

/-- Concrete value type with a lawful-per-Rust but non-reflexive
equality: Rust's PartialEq requires symmetry and transitivity only, so a
relation that never holds is a legal instance (as is IEEE float equality
at NaN, the crate's motivating example). -/
structure Flaky where
  val : Nat
deriving Repr

instance : BEq Flaky where
  beq := fun _ _ => false

/-- Helper: the delegating instance makes validation of a wrapper
definitionally the validation of its contained value. -/
theorem Dubious.validate_val {T E : Type} [Validate T T E] (d : Dubious T) :
    Validate.validate d = Validate.validate d.val :=
  rfl

/-- C1 counterexample: with the Clamped type, both sides validate
successfully (validation of the value -5 succeeds, normalizing it to 0),
yet zip_ok does not return the pair of original contained values (-5, 7):
it returns the pair of validation success values (0, 7). -/
theorem zip_ok_not_original_pair :
    (Validate.ok (Clamped.mk (-5))).isSome = true ∧
    (Validate.ok (Clamped.mk 7)).isSome = true ∧
    Dubious.zip_ok (Dubious.new (Clamped.mk (-5))) (Dubious.new (Clamped.mk 7))
      ≠ some (Dubious.new (Clamped.mk (-5), Clamped.mk 7)) := by
  refine ⟨rfl, rfl, ?_⟩
  decide

/-- C1 (amended): when both contained values validate successfully,
zip_ok on the two freshly wrapped values returns some wrapper pairing the
two success values returned by the validate calls (which coincide with
the originals only when validation does not normalize). -/
theorem zip_ok_pairs_success_values {T U ET EU : Type} [Validate T T ET] [Validate U U EU]
    (t : T) (u : U) (t' : T) (u' : U)
    (ht : Validate.validate t = Except.ok t') (hu : Validate.validate u = Except.ok u') :
    Dubious.zip_ok (Dubious.new t) (Dubious.new u) = some (Dubious.new (t', u')) := by
  simp [Dubious.zip_ok, Validate.ok, Dubious.validate_val, Dubious.new, ht, hu,
    resultOk, optZip]

/-- C1 witness: at the concrete inputs -5 and 7 of the Clamped type,
both validations succeed (with success values 0 and 7) and zip_ok
returns the wrapper around the success pair (0, 7). -/
theorem zip_ok_pairs_success_values_witness :
    Dubious.zip_ok (Dubious.new (Clamped.mk (-5))) (Dubious.new (Clamped.mk 7))
      = some (Dubious.new (Clamped.mk 0, Clamped.mk 7)) :=
  zip_ok_pairs_success_values (Clamped.mk (-5)) (Clamped.mk 7)
    (Clamped.mk 0) (Clamped.mk 7) rfl rfl

/-- C2 counterexample: with the Flaky type, whose equality is a legal
Rust PartialEq (symmetric, transitive) but not reflexive, the wrapper
constructed from a value does not compare equal to that bare value. -/
theorem eq_bare_not_universal :
    Dubious.eqBare (Dubious.new (Flaky.mk 0)) (Flaky.mk 0) ≠ true := by
  decide

/-- C2 (amended): the wrapper constructed from v compares equal to the
bare value v exactly when v compares equal to itself under T's equality;
in particular the claim holds for every reflexive equality instance. -/
theorem eq_bare_delegates {T : Type} [BEq T] (v : T) :
    Dubious.eqBare (Dubious.new v) v = (v == v) :=
  rfl

/-- C3: zip_ok returns some exactly when the contained value of each side
validates successfully; in every other case it returns none. -/
theorem zip_ok_isSome_iff {T U ET EU : Type} [Validate T T ET] [Validate U U EU]
    (a : Dubious T) (b : Dubious U) :
    (Dubious.zip_ok a b).isSome = true ↔
      ((∃ t, Validate.validate a.val = Except.ok t) ∧
       (∃ u, Validate.validate b.val = Except.ok u)) := by
  cases hva : Validate.validate a.val <;> cases hvb : Validate.validate b.val <;>
    simp [Dubious.zip_ok, Validate.ok, Dubious.validate_val, hva, hvb, resultOk, optZip]

/-- C4: validating a freshly constructed wrapper returns exactly the
result of validating the bare value directly; the wrapper adds no
validation logic of its own. -/
theorem validate_new_delegates {T E : Type} [Validate T T E] (v : T) :
    Validate.validate (Dubious.new v) = Validate.validate v :=
  rfl

/-- C5: mapping f and then mapping g over a wrapper equals mapping the
composition of g after f. -/
theorem map_map_comp {T U V : Type} (w : Dubious T) (f : T → U) (g : U → V) :
    (w.map f).map g = w.map (fun x => g (f x)) :=
  rfl

/-- C6: inverting a wrapper around some v yields some wrapper around v,
and inverting a wrapper around none yields none. -/
theorem invert_laws {T : Type} (v : T) :
    (Dubious.new (some v)).invert = some (Dubious.new v) ∧
    (Dubious.new (none : Option T)).invert = none :=
  ⟨rfl, rfl⟩

/-- C7: zip_with on two wrappers with f equals zip followed by map with
f; the single-step operation and the pipeline are the same function. -/
theorem zip_with_eq_zip_map {T U R : Type} (a : Dubious T) (b : Dubious U)
    (f : T × U → R) :
    a.zip_with b f = (a.zip b).map f :=
  rfl

/-- C8: flattening a doubly nested wrapper around v yields the singly
wrapped v, removing exactly one level of nesting. -/
theorem flatten_new_new {T : Type} (v : T) :
    Dubious.flatten (Dubious.new (Dubious.new v)) = Dubious.new v :=
  rfl

/-- C9: every composition operation (map, then, zip, zip_with, flatten)
is total: on every input it returns a definite wrapper value, never an
error or absent result. -/
theorem composition_ops_total {T U R V : Type} (w : Dubious T) (f : T → U)
    (g : T → Dubious U) (b : Dubious U) (p : T × U → R) (n : Dubious (Dubious V)) :
    (∃ u, w.map f = Dubious.new u) ∧
    (∃ u, w.thenDo g = Dubious.new u) ∧
    (∃ tu, w.zip b = Dubious.new tu) ∧
    (∃ r, Dubious.zip_with w b p = Dubious.new r) ∧
    (∃ v, n.flatten = Dubious.new v) :=
  ⟨⟨f w.val, rfl⟩, ⟨(g w.val).val, rfl⟩, ⟨(w.val, b.val), rfl⟩,
    ⟨p (w.val, b.val), rfl⟩, ⟨n.val.val, rfl⟩⟩

/-- C10: the From conversion produces exactly the same wrapper as new;
neither construction path performs a validity check (neither requires the
validity capability at all). -/
theorem from_eq_new {T : Type} (v : T) :
    Dubious.fromVal v = Dubious.new v :=
  rfl
